import Mathlib

/-!
Shallow embedding of `lmic_arduino_tutorial.ino`: the telemetry record
encoder (the packed `GPS_TDF` structure and its byte layout) and the
event-driven uplink logic (`onEvent`, `OnTransferComplete`,
`OnJoinComplete`, `DoSendData`, `sendTDFData`, `sendRawData`).

Machine integers are modelled as `Nat`/`Int` with explicit reduction
modulo `2^w` at serialization points.  The reference targets (Feather M0
Cortex-M0+ and Feather 32u4 AVR) are little-endian, so the in-memory
bytes of a packed struct are the fields serialized little-endian at
consecutive offsets; `GPS_TDF.bytes` is exactly the byte image that
`sendTDFData` reinterprets and hands to the stack.

Side effects of the handlers (serial prints, the blocking delay, the
call into the stack's send primitive) are reified as a list of `Action`
values in program order.  The stack-owned inputs a handler reads
(`LMIC.opmode & OP_TXRXPEND`, `LMIC.txrxFlags`) are explicit parameters.
-/

namespace LmicTutorial

/-- Little-endian bytes of a `uint8_t` value (reduced mod 2^8). -/
def u8bytes (x : Nat) : List Nat := [x % 256]

/-- Little-endian bytes of a `uint16_t` value (reduced mod 2^16). -/
def u16bytes (x : Nat) : List Nat := [x % 256, x / 256 % 256]

/-- Little-endian bytes of a `uint32_t` value (reduced mod 2^32). -/
def u32bytes (x : Nat) : List Nat :=
  [x % 256, x / 256 % 256, x / 65536 % 256, x / 16777216 % 256]

/-- Little-endian two's-complement bytes of an `int16_t` value. -/
def i16bytes (x : Int) : List Nat := u16bytes (x % 65536).toNat

/-- Little-endian two's-complement bytes of an `int32_t` value. -/
def i32bytes (x : Int) : List Nat := u32bytes (x % 4294967296).toNat

/-- The payload structure `GPS_TDF_DATA` (lines 132-151 of the source):
ten fixed-width fields, `__attribute__((packed))`. -/
structure GPS_TDF_DATA where
  lon : Int
  lat : Int
  height : Nat
  accuracy : Nat
  heading : Nat
  speed : Nat
  pdop : Nat
  fix : Nat
  numsv : Nat
  flags : Nat

/-- The `GPS_TDF_DATA()` constructor: `memset(this, 0, sizeof(GPS_TDF_DATA))`. -/
def GPS_TDF_DATA.init : GPS_TDF_DATA :=
  { lon := 0, lat := 0, height := 0, accuracy := 0, heading := 0, speed := 0,
    pdop := 0, fix := 0, numsv := 0, flags := 0 }

/-- In-memory bytes of the packed `GPS_TDF_DATA`: each field little-endian
at consecutive offsets, in declaration order, with no padding. -/
def GPS_TDF_DATA.bytes (d : GPS_TDF_DATA) : List Nat :=
  i32bytes d.lon ++ i32bytes d.lat ++ u32bytes d.height ++ u16bytes d.accuracy ++
  u16bytes d.heading ++ u16bytes d.speed ++ u8bytes d.pdop ++ u8bytes d.fix ++
  u8bytes d.numsv ++ u8bytes d.flags

/-- The wire record `GPS_TDF` (lines 154-162): `const int16_t GPS_SID` header
followed by the payload, `__attribute__((packed))`. -/
structure GPS_TDF where
  GPS_SID : Int
  Data : GPS_TDF_DATA

/-- The implicit `GPS_TDF` default constructor: the in-class initializer sets
`GPS_SID = 281L` and `Data` is default-constructed (all zero). -/
def GPS_TDF.init : GPS_TDF := { GPS_SID := 281, Data := GPS_TDF_DATA.init }

/-- In-memory bytes of the packed `GPS_TDF`: the 2-byte `GPS_SID` header
immediately followed by the payload bytes.  This is the byte sequence
`sendTDFData` obtains by `reinterpret_cast` and passes to `sendRawData`
with length `sizeof(tdf)`. -/
def GPS_TDF.bytes (t : GPS_TDF) : List Nat :=
  i16bytes t.GPS_SID ++ t.Data.bytes

/-- Observable side effects of the sketch's functions, in program order:
serial log output of a string, serial print of a number, the blocking
`delay(ms)`, the call `LMIC_setTxData2(port, data, len, confirm)`, and a
marker for passing a null `const char*` to `Serial.println` (undefined
behaviour in the source). -/
inductive Action where
  | log (s : String)
  | logNum (n : Nat)
  | delayMs (ms : Nat)
  | send (port : Nat) (data : List Nat) (len : Nat) (confirm : Bool)
  | nullDeref
deriving DecidableEq

/-- Predicate: the action is a call to the stack's send primitive. -/
def isSend : Action → Bool
  | .send _ _ _ _ => true
  | _ => false

/-- Predicate: the action is a blocking delay. -/
def isDelay : Action → Bool
  | .delayMs _ => true
  | _ => false

/-- Data argument of a send action (empty for other actions). -/
def Action.sendData : Action → List Nat
  | .send _ d _ _ => d
  | _ => []

/-- Confirm argument of a send action (false for other actions). -/
def Action.sendConfirm : Action → Bool
  | .send _ _ _ c => c
  | _ => false

/-- The state LMIC's `opmode & OP_TXRXPEND` and `txrxFlags & TXRX_ACK` /
`TXRX_NACK` bits that the handlers read, as explicit booleans. -/
structure TxrxFlags where
  ack : Bool
  nack : Bool
deriving DecidableEq

/-- The function `sendRawData(data, len, confirm)` (lines 165-175): if the
stack's pending-transmission bit is set, return immediately (no send, no
print); otherwise call `LMIC_setTxData2(1, data, len, confirm)` and log
the byte count. -/
def sendRawData (pending : Bool) (data : List Nat) (len : Nat) (confirm : Bool) :
    List Action :=
  if pending then []
  else [Action.send 1 data len confirm, Action.log "Sending ", Action.logNum len,
        Action.log " bytes of data"]

/-- The function `sendTDFData(tdf, confirm)` (lines 178-182): reinterpret the
packed record as raw bytes and forward them with `sizeof(tdf)`. -/
def sendTDFData (pending : Bool) (tdf : GPS_TDF) (confirm : Bool) : List Action :=
  sendRawData pending tdf.bytes tdf.bytes.length confirm

/-- The record built by `DoSendData` (lines 185-192): default-constructed
(header 281, payload zeroed) and then `tdf.Data.lat = 1234567890`. -/
def doSendRecord : GPS_TDF :=
  { GPS_TDF.init with Data := { GPS_TDF_DATA.init with lat := 1234567890 } }

/-- The function `DoSendData()` (lines 185-192): build the dummy record and
submit it confirmed. -/
def DoSendData (pending : Bool) : List Action :=
  sendTDFData pending doSendRecord true

/-- The constant `EventCount = 15` (line 68). -/
def EventCount : Nat := 15

/-- The diagnostic table `const char *EventName[EventCount]` (lines 69-84).
The initializer list is missing the comma between `"Link Dead"` and
`"Link Alive"`, so C string-literal concatenation yields the single
element `"Link DeadLink Alive"`: only 14 of the 15 declared entries are
initialized and the last pointer is zero-initialized (`none` = NULL). -/
def EventName : List (Option String) :=
  [some "Scan Timeout", some "Beacon Found", some "Beacon Missed",
   some "Beacon Tracked", some "Joining", some "Joined", some "RFU",
   some "Join Failed", some "Rejoin Failed", some "TX Complete",
   some "Lost TSync", some "Reset", some "RXComplete",
   some "Link DeadLink Alive", none]

/-- The guard `ev >= 1 && ev <= EventCount` at line 94. -/
def eventNameGuard (ev : Nat) : Bool :=
  decide (1 ≤ ev) && decide (ev ≤ EventCount)

/-- The call `Serial.println(EventName[ev - 1])`: a non-null `const char*`
prints the string; a NULL pointer is undefined behaviour. -/
def namePrintAction : Option String → Action
  | some s => Action.log s
  | none => Action.nullDeref

/-- Event codes of the LMIC `ev_t` enum consumed by `onEvent`.  Modelled
from the LMIC library header (an external collaborator, not under this
repository's source); the numbering is 1-based and consistent with the
order of the sketch's own `EventName` table (entry `ev - 1` names event
`ev`): `EV_JOINING = 5`, `EV_JOINED = 6`, `EV_TXCOMPLETE = 10`. -/
def EV_JOINING : Nat := 5

/-- LMIC event code for a completed join (see `EV_JOINING`). -/
def EV_JOINED : Nat := 6

/-- LMIC event code for a completed transmission (see `EV_JOINING`). -/
def EV_TXCOMPLETE : Nat := 10

/-- The `PRINT_EVENTS` prologue of `onEvent` (lines 92-96): print
`"Event: "`, and when the guard holds, print the table entry `ev - 1`. -/
def eventPrint (ev : Nat) : List Action :=
  Action.log "Event: " ::
    (if eventNameGuard ev then [namePrintAction (EventName[ev - 1]?.getD none)]
     else [])

/-- The handler `OnTransferComplete()` (lines 195-208): log, report the
ack/nack bits, block for 5000 ms, then call `DoSendData()`. -/
def OnTransferComplete (fl : TxrxFlags) (pending : Bool) : List Action :=
  Action.log "Transfer Complete" ::
    ((if fl.ack then [Action.log "Received ACK"]
      else if fl.nack then [Action.log "No ACK received"]
      else []) ++ (Action.delayMs 5000 :: DoSendData pending))

/-- The handler `OnJoinComplete()` (lines 211-216): log, then call
`DoSendData()` immediately (no delay). -/
def OnJoinComplete (pending : Bool) : List Action :=
  Action.log "Joined network" :: DoSendData pending

/-- The `switch (ev)` dispatch of `onEvent` (lines 100-119). -/
def eventDispatch (ev : Nat) (fl : TxrxFlags) (pending : Bool) : List Action :=
  if ev = EV_TXCOMPLETE then OnTransferComplete fl pending
  else if ev = EV_JOINED then OnJoinComplete pending
  else if ev = EV_JOINING then []
  else [Action.log "unhandled event"]

/-- The LMIC callback `onEvent(ev)` (lines 90-120): the diagnostic
prologue followed by the switch dispatch. -/
def onEvent (ev : Nat) (fl : TxrxFlags) (pending : Bool) : List Action :=
  eventPrint ev ++ eventDispatch ev fl pending

/-- Modelled from the spec: the implicit `SessionState` tracked by the
session state machine (`Unjoined`, `Joining`, `Joined`); the sketch keeps
no such variable, the state lives inside the LMIC stack. -/
inductive SessionState where
  | Unjoined
  | Joining
  | Joined
deriving DecidableEq

/-- Modelled from the spec: how the implicit session state moves on an
event; the dispatch in `onEvent` does not read it. -/
def stepState (st : SessionState) (ev : Nat) : SessionState :=
  if ev = EV_JOINED then SessionState.Joined
  else if ev = EV_JOINING then SessionState.Joining
  else st

/-- One delivery of an event to `onEvent`: the session state moves per
`stepState` and the actions are those of `onEvent`. -/
def step (st : SessionState) (ev : Nat) (fl : TxrxFlags) (pending : Bool) :
    SessionState × List Action :=
  (stepState st ev, onEvent ev fl pending)

/-- One observed event delivery from the stack: the event code together
with the stack-owned bits the handler reads at that moment. -/
structure StackObs where
  ev : Nat
  fl : TxrxFlags
  pending : Bool

/-- Actions of a whole run: the events delivered by `os_runloop_once`,
handled strictly in order, each by `onEvent`. -/
def runActions : List StackObs → List Action
  | [] => []
  | o :: rest => onEvent o.ev o.fl o.pending ++ runActions rest

theorem eventPrint_no_send (ev : Nat) (a : Action) (h : a ∈ eventPrint ev) :
    isSend a = false := by
  unfold eventPrint at h
  rcases List.mem_cons.mp h with h | h
  · subst h; rfl
  · split at h
    · rcases List.mem_singleton.mp h with h
      subst h
      cases EventName[ev - 1]?.getD none <;> rfl
    · exact absurd h (List.not_mem_nil a)

theorem mem_DoSendData_send (pending : Bool) (a : Action)
    (h : a ∈ DoSendData pending) (hs : isSend a = true) :
    a = Action.send 1 doSendRecord.bytes doSendRecord.bytes.length true := by
  cases pending
  · replace h : a ∈ [Action.send 1 doSendRecord.bytes doSendRecord.bytes.length true,
        Action.log "Sending ", Action.logNum doSendRecord.bytes.length,
        Action.log " bytes of data"] := h
    simp only [List.mem_cons, List.not_mem_nil, or_false] at h
    rcases h with h | h | h | h <;> subst h
    · rfl
    all_goals exact absurd hs (by decide)
  · replace h : a ∈ ([] : List Action) := h
    exact absurd h (List.not_mem_nil a)

theorem mem_onEvent_send (ev : Nat) (fl : TxrxFlags) (pending : Bool) (a : Action)
    (h : a ∈ onEvent ev fl pending) (hs : isSend a = true) :
    a = Action.send 1 doSendRecord.bytes doSendRecord.bytes.length true := by
  unfold onEvent at h
  rcases List.mem_append.mp h with h | h
  · exact absurd hs (by simp [eventPrint_no_send ev a h])
  · unfold eventDispatch at h
    split at h
    · unfold OnTransferComplete at h
      rcases List.mem_cons.mp h with h | h
      · subst h; exact absurd hs (by decide)
      rcases List.mem_append.mp h with h | h
      · split at h
        · rcases List.mem_singleton.mp h with h
          subst h; exact absurd hs (by decide)
        · split at h
          · rcases List.mem_singleton.mp h with h
            subst h; exact absurd hs (by decide)
          · exact absurd h (List.not_mem_nil a)
      · rcases List.mem_cons.mp h with h | h
        · subst h; exact absurd hs (by decide)
        · exact mem_DoSendData_send pending a h hs
    · split at h
      · unfold OnJoinComplete at h
        rcases List.mem_cons.mp h with h | h
        · subst h; exact absurd hs (by decide)
        · exact mem_DoSendData_send pending a h hs
      · split at h
        · exact absurd h (List.not_mem_nil a)
        · rcases List.mem_singleton.mp h with h
          subst h; exact absurd hs (by decide)

theorem mem_runActions_send (trace : List StackObs) (a : Action)
    (h : a ∈ runActions trace) (hs : isSend a = true) :
    a = Action.send 1 doSendRecord.bytes doSendRecord.bytes.length true := by
  induction trace with
  | nil => exact absurd h (List.not_mem_nil a)
  | cons o rest ih =>
    simp only [runActions] at h
    rcases List.mem_append.mp h with h | h
    · exact mem_onEvent_send o.ev o.fl o.pending a h hs
    · exact ih h

theorem eventNameGuard_index_in_bounds (ev : Nat) (h : eventNameGuard ev = true) :
    ev - 1 < EventName.length := by
  simp only [eventNameGuard, EventCount, Bool.and_eq_true, decide_eq_true_eq] at h
  show ev - 1 < 15
  omega

/-- Claim C1, counterexample: the record built and submitted by
`DoSendData` serializes to 24 bytes, not the claimed 23; this exact byte
sequence is what reaches the stack's send primitive. -/
theorem C1_counterexample :
    doSendRecord.bytes.length = 24 ∧ doSendRecord.bytes.length ≠ 23 ∧
    Action.send 1 doSendRecord.bytes doSendRecord.bytes.length true ∈ DoSendData false := by
  decide

/-- Claim C1 (amended): every encoded `GPS_TDF` record is exactly 24
bytes: the 2-byte type-identifier header followed by the 22-byte packed
payload (the ten declared fields total 4+4+4+2+2+2+1+1+1+1 = 22 bytes);
the send call of `DoSendData` carries exactly this byte sequence. -/
theorem C1_record_size :
    (∀ t : GPS_TDF, t.bytes = i16bytes t.GPS_SID ++ t.Data.bytes ∧
        (i16bytes t.GPS_SID).length = 2 ∧ t.Data.bytes.length = 22 ∧
        t.bytes.length = 24) ∧
    (DoSendData false).filter isSend =
      [Action.send 1 doSendRecord.bytes doSendRecord.bytes.length true] ∧
    doSendRecord.bytes.length = 24 :=
  ⟨fun _ => ⟨rfl, rfl, rfl, rfl⟩, by decide, by decide⟩

/-- Claim C2: a submission attempted while the stack's
pending-transmission bit (`LMIC.opmode & OP_TXRXPEND`) is set performs no
action at all — no call to the send primitive, no record handed anywhere,
no queuing, no logged error; the whole submission is silently dropped. -/
theorem C2_pending_drops_submission (data : List Nat) (len : Nat) (confirm : Bool) :
    sendRawData true data len confirm = [] ∧ DoSendData true = [] :=
  ⟨rfl, rfl⟩

/-- Claim C3: a `TransmissionComplete` event handled while `Joined`
leaves the state `Joined` and performs exactly one cadence step
regardless of the ack/nack bits: the action list is some logs (no delay,
no send), then the single `delay(5000)`, then the `DoSendData`
submission — so the fixed 5-second delay elapses before the next submit. -/
theorem C3_txcomplete_cadence (fl : TxrxFlags) (pending : Bool) :
    (step SessionState.Joined EV_TXCOMPLETE fl pending).1 = SessionState.Joined ∧
    ∃ pre,
      (step SessionState.Joined EV_TXCOMPLETE fl pending).2 =
        pre ++ Action.delayMs 5000 :: DoSendData pending ∧
      pre.all (fun a => !isDelay a && !isSend a) = true ∧
      (step SessionState.Joined EV_TXCOMPLETE fl pending).2.filter isDelay =
        [Action.delayMs 5000] := by
  obtain ⟨ack, nack⟩ := fl
  refine ⟨rfl, ?_⟩
  cases ack <;> cases nack <;> cases pending
  · exact ⟨[Action.log "Event: ", Action.log "TX Complete",
      Action.log "Transfer Complete"], rfl, rfl, rfl⟩
  · exact ⟨[Action.log "Event: ", Action.log "TX Complete",
      Action.log "Transfer Complete"], rfl, rfl, rfl⟩
  · exact ⟨[Action.log "Event: ", Action.log "TX Complete",
      Action.log "Transfer Complete", Action.log "No ACK received"], rfl, rfl, rfl⟩
  · exact ⟨[Action.log "Event: ", Action.log "TX Complete",
      Action.log "Transfer Complete", Action.log "No ACK received"], rfl, rfl, rfl⟩
  · exact ⟨[Action.log "Event: ", Action.log "TX Complete",
      Action.log "Transfer Complete", Action.log "Received ACK"], rfl, rfl, rfl⟩
  · exact ⟨[Action.log "Event: ", Action.log "TX Complete",
      Action.log "Transfer Complete", Action.log "Received ACK"], rfl, rfl, rfl⟩
  · exact ⟨[Action.log "Event: ", Action.log "TX Complete",
      Action.log "Transfer Complete", Action.log "Received ACK"], rfl, rfl, rfl⟩
  · exact ⟨[Action.log "Event: ", Action.log "TX Complete",
      Action.log "Transfer Complete", Action.log "Received ACK"], rfl, rfl, rfl⟩

/-- Claim C4: a `JoinSucceeded` event handled while `Joining` moves the
state to `Joined` and performs exactly one confirmed submission with no
delay action anywhere in the handler: the first post-join uplink goes out
immediately. -/
theorem C4_join_immediate_uplink (fl : TxrxFlags) :
    (step SessionState.Joining EV_JOINED fl false).1 = SessionState.Joined ∧
    (step SessionState.Joining EV_JOINED fl false).2.filter isSend =
      [Action.send 1 doSendRecord.bytes doSendRecord.bytes.length true] ∧
    (step SessionState.Joining EV_JOINED fl false).2.filter isDelay = [] ∧
    Action.sendConfirm
      (Action.send 1 doSendRecord.bytes doSendRecord.bytes.length true) = true :=
  ⟨rfl, rfl, rfl, rfl⟩

/-- Claim C5: the packed record's bytes are the fields at consecutive
declared offsets, in declaration order, with no padding: header at offset
0 (2 bytes), then lon 2, lat 6, height 10, accuracy 14, heading 16, speed
18, pdop 20, fix 21, numsv 22, flags 23, totalling 24 bytes. -/
theorem C5_packed_layout (t : GPS_TDF) :
    t.bytes.length = 24 ∧
    t.bytes.take 2 = i16bytes t.GPS_SID ∧
    (t.bytes.drop 2).take 4 = i32bytes t.Data.lon ∧
    (t.bytes.drop 6).take 4 = i32bytes t.Data.lat ∧
    (t.bytes.drop 10).take 4 = u32bytes t.Data.height ∧
    (t.bytes.drop 14).take 2 = u16bytes t.Data.accuracy ∧
    (t.bytes.drop 16).take 2 = u16bytes t.Data.heading ∧
    (t.bytes.drop 18).take 2 = u16bytes t.Data.speed ∧
    (t.bytes.drop 20).take 1 = u8bytes t.Data.pdop ∧
    (t.bytes.drop 21).take 1 = u8bytes t.Data.fix ∧
    (t.bytes.drop 22).take 1 = u8bytes t.Data.numsv ∧
    (t.bytes.drop 23).take 1 = u8bytes t.Data.flags :=
  ⟨rfl, rfl, rfl, rfl, rfl, rfl, rfl, rfl, rfl, rfl, rfl, rfl⟩

/-- Claim C6: no record is ever retransmitted: the send actions of
`OnTransferComplete` are identical whatever the ack/nack outcome and are
exactly those of a fresh `DoSendData` call, whose record is the
default-constructed (all-zero) payload with only `lat` populated. -/
theorem C6_no_retransmission (fl fl2 : TxrxFlags) (pending : Bool) :
    (OnTransferComplete fl pending).filter isSend =
      (OnTransferComplete fl2 pending).filter isSend ∧
    (OnTransferComplete fl pending).filter isSend =
      (DoSendData pending).filter isSend ∧
    doSendRecord =
      { GPS_SID := 281,
        Data := { lon := 0, lat := 1234567890, height := 0, accuracy := 0,
                  heading := 0, speed := 0, pdop := 0, fix := 0, numsv := 0,
                  flags := 0 } } ∧
    GPS_TDF_DATA.init =
      { lon := 0, lat := 0, height := 0, accuracy := 0, heading := 0, speed := 0,
        pdop := 0, fix := 0, numsv := 0, flags := 0 } := by
  obtain ⟨a1, n1⟩ := fl
  obtain ⟨a2, n2⟩ := fl2
  refine ⟨?_, ?_, rfl, rfl⟩
  · cases a1 <;> cases n1 <;> cases a2 <;> cases n2 <;> cases pending <;> rfl
  · cases a1 <;> cases n1 <;> cases pending <;> rfl

/-- Claim C7, failing input: for event code 15 the unhandled-event path
does run (the dispatch logs "unhandled event" and the session state is
untouched), but the diagnostic prologue passes the zero-initialized
`EventName[14]` to `Serial.println` — a null-pointer use, so the handler
is not crash-free for every event code. -/
theorem C7_unknown_event_null_print :
    Action.nullDeref ∈ onEvent 15 { ack := false, nack := false } false ∧
    eventDispatch 15 { ack := false, nack := false } false =
      [Action.log "unhandled event"] ∧
    stepState SessionState.Joined 15 = SessionState.Joined := by
  exact ⟨by decide, rfl, rfl⟩

/-- Claim C8, failing input: the guard `1 <= ev <= EventCount` does admit
`ev = 15`, the index 14 is within the declared 15-entry bounds, yet the
entry read there is the zero-initialized NULL pointer (the initializer
list lost one element to the missing comma between "Link Dead" and
"Link Alive"), so the accessed entry is not a valid string. -/
theorem C8_name_table_null_entry :
    eventNameGuard 15 = true ∧ EventName.length = EventCount ∧
    15 - 1 < EventName.length ∧ EventName[15 - 1]? = some none := by
  decide

/-- Claim C9: every byte sequence ever handed to the stack's send
primitive, over any sequence of delivered events, starts with the same
2-byte header: the little-endian encoding of the constant 281. -/
theorem C9_constant_header (trace : List StackObs) (a : Action)
    (h : a ∈ runActions trace) (hs : isSend a = true) :
    (Action.sendData a).take 2 = i16bytes 281 ∧ i16bytes 281 = [25, 1] := by
  constructor
  · rw [mem_runActions_send trace a h hs]
    decide
  · rfl

/-- Claim C9, witness: a concrete one-event run in which the send occurs
and its header bytes are the encoding of 281. -/
theorem C9_constant_header_witness :
    (Action.send 1 doSendRecord.bytes doSendRecord.bytes.length true ∈
      runActions [⟨EV_JOINED, ⟨false, false⟩, false⟩]) ∧
    (Action.sendData
        (Action.send 1 doSendRecord.bytes doSendRecord.bytes.length true)).take 2 =
      i16bytes 281 :=
  ⟨by decide,
   (C9_constant_header [⟨EV_JOINED, ⟨false, false⟩, false⟩]
      (Action.send 1 doSendRecord.bytes doSendRecord.bytes.length true)
      (by decide) (by decide)).1⟩

/-- Claim C10: every action handed to the stack's send primitive, over
any sequence of delivered events, is the one fixed send: port 1, the
bytes of the constant record (zero payload except `lat = 1234567890`,
header 281), length 24, confirmed flag true — independent of the event
history. -/
theorem C10_constant_uplink (trace : List StackObs) (a : Action)
    (h : a ∈ runActions trace) (hs : isSend a = true) :
    a = Action.send 1 doSendRecord.bytes doSendRecord.bytes.length true ∧
    doSendRecord =
      { GPS_SID := 281,
        Data := { lon := 0, lat := 1234567890, height := 0, accuracy := 0,
                  heading := 0, speed := 0, pdop := 0, fix := 0, numsv := 0,
                  flags := 0 } } ∧
    Action.sendConfirm a = true := by
  have he := mem_runActions_send trace a h hs
  exact ⟨he, rfl, by rw [he]; rfl⟩

/-- Claim C10, witness: a concrete run containing a send, at which the
uplink is the fixed constant confirmed record. -/
theorem C10_constant_uplink_witness :
    (Action.send 1 doSendRecord.bytes doSendRecord.bytes.length true ∈
      runActions [⟨EV_TXCOMPLETE, ⟨false, true⟩, false⟩]) ∧
    Action.sendConfirm
      (Action.send 1 doSendRecord.bytes doSendRecord.bytes.length true) = true :=
  ⟨by decide,
   (C10_constant_uplink [⟨EV_TXCOMPLETE, ⟨false, true⟩, false⟩]
      (Action.send 1 doSendRecord.bytes doSendRecord.bytes.length true)
      (by decide) (by decide)).2.2⟩

end LmicTutorial
